import Mathlib

/-!
Shallow embedding of the AI Secretary pipeline (ai_secretary.py).

External effects (the ollama language-model gateway, the TaskWarrior
subprocess calls, and the interactive stdin fallback) are modelled by a
`World` record of deterministic response functions.  Exceptions are
modelled with `Except PyError`; the one genuinely non-terminating loop
(the time-correction retry inside `handle_productivity`) is modelled with
explicit fuel, where a result of `none` means the loop never exits.
-/

/-- Python exception values, distinguished at the granularity the
orchestrator handlers care about: `except ValueError` versus
`except Exception`. -/
inductive PyError where
  | valueError (msg : String)
  | runtimeError (msg : String)
  | otherError (msg : String)
deriving DecidableEq, Repr

/-- The `str(e)` text of an exception. -/
def PyError.msg : PyError → String
  | .valueError m => m
  | .runtimeError m => m
  | .otherError m => m

/-- Python `\s` for the ASCII range, as used by `re` and `str.strip`. -/
def pyIsSpace (c : Char) : Bool :=
  c = ' ' || c = '\t' || c = '\n' || c = '\r' || c = '\x0b' || c = '\x0c'

/-- Python `str.strip()`. -/
def pyStrip (s : String) : String :=
  String.mk (((s.toList.dropWhile pyIsSpace).reverse.dropWhile pyIsSpace).reverse)

/-- Python `str.lower()` (ASCII). -/
def pyLower (s : String) : String :=
  String.mk (s.toList.map Char.toLower)

/-- Exact case-sensitive list-prefix test. -/
def isPrefixList : List Char → List Char → Bool
  | [], _ => true
  | _ :: _, [] => false
  | a :: as, b :: bs => a = b && isPrefixList as bs

/-- Case-insensitive prefix test; the needle is given lower-case. -/
def ciIsPrefixList : List Char → List Char → Bool
  | [], _ => true
  | _ :: _, [] => false
  | a :: as, b :: bs => a = b.toLower && ciIsPrefixList as bs

/-- Substring occurrence on char lists (Python `needle in haystack`). -/
def listHasSub (needle : List Char) : List Char → Bool
  | [] => needle.isEmpty
  | c :: rest => isPrefixList needle (c :: rest) || listHasSub needle rest

/-- Python `needle in haystack` on strings. -/
def strContains (hay needle : String) : Bool :=
  listHasSub needle.toList hay.toList

/-- A Python `datetime.datetime` value. -/
structure PyDateTime where
  year : Nat
  month : Nat
  day : Nat
  hour : Nat
  minute : Nat
  second : Nat
deriving DecidableEq, Repr

/-- A Python `datetime.date` value. -/
structure PyDate where
  year : Nat
  month : Nat
  day : Nat
deriving DecidableEq, Repr

def pad2 (n : Nat) : String := if n < 10 then "0" ++ toString n else toString n

def pad4 (n : Nat) : String :=
  if n < 10 then "000" ++ toString n
  else if n < 100 then "00" ++ toString n
  else if n < 1000 then "0" ++ toString n
  else toString n

/-- `str(datetime)`: `YYYY-MM-DD HH:MM:SS`. -/
def PyDateTime.str (dt : PyDateTime) : String :=
  pad4 dt.year ++ "-" ++ pad2 dt.month ++ "-" ++ pad2 dt.day ++ " " ++
    pad2 dt.hour ++ ":" ++ pad2 dt.minute ++ ":" ++ pad2 dt.second

/-- `str(date)`: `YYYY-MM-DD`. -/
def PyDate.str (d : PyDate) : String :=
  pad4 d.year ++ "-" ++ pad2 d.month ++ "-" ++ pad2 d.day

/-- `datetime.date()` of a datetime. -/
def PyDateTime.date (dt : PyDateTime) : PyDate := ⟨dt.year, dt.month, dt.day⟩

def leapYear (y : Nat) : Bool := (y % 4 == 0 && y % 100 != 0) || y % 400 == 0

def daysInMonth (y m : Nat) : Nat :=
  if m = 2 then (if leapYear y then 29 else 28)
  else if m = 4 || m = 6 || m = 9 || m = 11 then 30
  else 31

/-- `date + timedelta(days=1)`. -/
def PyDate.nextDay (d : PyDate) : PyDate :=
  if d.day < daysInMonth d.year d.month then ⟨d.year, d.month, d.day + 1⟩
  else if d.month < 12 then ⟨d.year, d.month + 1, 1⟩
  else ⟨d.year + 1, 1, 1⟩

def digitVal (c : Char) : Nat := c.toNat - 48

/-- CPython strptime `%Y`: exactly four digits. -/
def readYear4 : List Char → Option (Nat × List Char)
  | a :: b :: c :: d :: rest =>
    if a.isDigit && b.isDigit && c.isDigit && d.isDigit then
      some (1000 * digitVal a + 100 * digitVal b + 10 * digitVal c + digitVal d, rest)
    else none
  | _ => none

/-- A literal character of a strptime format. -/
def readLit (ch : Char) : List Char → Option (List Char)
  | [] => none
  | c :: rest => if c = ch then some rest else none

/-- CPython strptime two-alternatives numeric field: a two-digit form
(value accepted by `ok2`) is tried before a one-digit form (accepted by
`ok1`), mirroring regexes such as `1[0-2]|0[1-9]|[1-9]`.  Because every
such field is followed by a non-digit in the formats used here, this
greedy choice agrees with the backtracking regex. -/
def read2or1 (ok2 ok1 : Nat → Bool) : List Char → Option (Nat × List Char)
  | [] => none
  | [a] => if a.isDigit && ok1 (digitVal a) then some (digitVal a, []) else none
  | a :: b :: rest =>
    if a.isDigit && b.isDigit && ok2 (10 * digitVal a + digitVal b) then
      some (10 * digitVal a + digitVal b, rest)
    else if a.isDigit && ok1 (digitVal a) then some (digitVal a, b :: rest)
    else none

/-- Whitespace in a strptime format string matches `\s+`. -/
def readSpaces1 : List Char → Option (List Char)
  | [] => none
  | c :: rest => if pyIsSpace c then some (rest.dropWhile pyIsSpace) else none

/-- CPython strptime `%p` for the C locale: `AM|PM`, case-insensitive. -/
def readAmPm : List Char → Option (Bool × List Char)
  | a :: b :: rest =>
    if a.toLower = 'a' && b.toLower = 'm' then some (false, rest)
    else if a.toLower = 'p' && b.toLower = 'm' then some (true, rest)
    else none
  | _ => none

def monthOk2 (v : Nat) : Bool := 1 ≤ v && v ≤ 12
def oneToNine (v : Nat) : Bool := 1 ≤ v && v ≤ 9
def dayOk2 (v : Nat) : Bool := 1 ≤ v && v ≤ 31
def hourOk2 (v : Nat) : Bool := v ≤ 23
def minuteOk2 (v : Nat) : Bool := v ≤ 59
def anyDigit (v : Nat) : Bool := v ≤ 9

/-- `datetime.strptime(s, "%Y-%m-%d %H:%M")` on char lists; `none` is the
ValueError case.  The final day-of-month check is the validation performed
by the `datetime` constructor. -/
def strptimeFullList (cs : List Char) : Option PyDateTime :=
  match readYear4 cs with
  | none => none
  | some (y, r1) =>
  match readLit '-' r1 with
  | none => none
  | some r2 =>
  match read2or1 monthOk2 oneToNine r2 with
  | none => none
  | some (mo, r3) =>
  match readLit '-' r3 with
  | none => none
  | some r4 =>
  match read2or1 dayOk2 oneToNine r4 with
  | none => none
  | some (dy, r5) =>
  match readSpaces1 r5 with
  | none => none
  | some r6 =>
  match read2or1 hourOk2 anyDigit r6 with
  | none => none
  | some (h, r7) =>
  match readLit ':' r7 with
  | none => none
  | some r8 =>
  match read2or1 minuteOk2 anyDigit r8 with
  | none => none
  | some (mi, r9) =>
  if r9 = [] && dy ≤ daysInMonth y mo then some ⟨y, mo, dy, h, mi, 0⟩ else none

def strptimeFull (s : String) : Option PyDateTime := strptimeFullList s.toList

/-- `datetime.strptime(s, "%Y-%m-%d").date()`. -/
def strptimeYMDList (cs : List Char) : Option PyDate :=
  match readYear4 cs with
  | none => none
  | some (y, r1) =>
  match readLit '-' r1 with
  | none => none
  | some r2 =>
  match read2or1 monthOk2 oneToNine r2 with
  | none => none
  | some (mo, r3) =>
  match readLit '-' r3 with
  | none => none
  | some r4 =>
  match read2or1 dayOk2 oneToNine r4 with
  | none => none
  | some (dy, r5) =>
  if r5 = [] && dy ≤ daysInMonth y mo then some ⟨y, mo, dy⟩ else none

def strptimeYMD (s : String) : Option PyDate := strptimeYMDList s.toList

/-- `datetime.strptime(s, "%I:%M %p")`, reduced to (24h hour, minute). -/
def strptimeIMpList (cs : List Char) : Option (Nat × Nat) :=
  match read2or1 monthOk2 oneToNine cs with
  | none => none
  | some (h12, r1) =>
  match readLit ':' r1 with
  | none => none
  | some r2 =>
  match read2or1 minuteOk2 anyDigit r2 with
  | none => none
  | some (mi, r3) =>
  match readSpaces1 r3 with
  | none => none
  | some r4 =>
  match readAmPm r4 with
  | none => none
  | some (pm, r5) =>
  if r5 = [] then
    some ((if pm then (if h12 = 12 then 12 else h12 + 12)
           else (if h12 = 12 then 0 else h12)), mi)
  else none

def strptimeIMp (s : String) : Option (Nat × Nat) := strptimeIMpList s.toList

/-- `strftime("%I:%M %p")`. -/
def fmt12 (dt : PyDateTime) : String :=
  pad2 (if dt.hour % 12 = 0 then 12 else dt.hour % 12) ++ ":" ++ pad2 dt.minute ++
    " " ++ (if dt.hour < 12 then "AM" else "PM")

/-- The `Intent` enumeration, in declaration order. -/
inductive Intent where
  | TASK_MANAGEMENT
  | TASK_QUERY
  | PRODUCTIVITY
  | LOCATION_QUERY
  | GENERAL_QUERY
  | UNKNOWN
deriving DecidableEq, Repr

/-- The `.value` string tag of each intent. -/
def Intent.value : Intent → String
  | .TASK_MANAGEMENT => "task_management"
  | .TASK_QUERY => "task_query"
  | .PRODUCTIVITY => "productivity"
  | .LOCATION_QUERY => "location_query"
  | .GENERAL_QUERY => "general_query"
  | .UNKNOWN => "unknown"

/-- `for intent in Intent` iterates the members in declaration order. -/
def intentList : List Intent :=
  [.TASK_MANAGEMENT, .TASK_QUERY, .PRODUCTIVITY, .LOCATION_QUERY, .GENERAL_QUERY, .UNKNOWN]

/-- Declaration-order index of an intent. -/
def intentIdx : Intent → Nat
  | .TASK_MANAGEMENT => 0
  | .TASK_QUERY => 1
  | .PRODUCTIVITY => 2
  | .LOCATION_QUERY => 3
  | .GENERAL_QUERY => 4
  | .UNKNOWN => 5

/-- The structured-data dict; absent keys are `none`. -/
structure StructuredData where
  task_name : Option String := none
  due : Option PyDateTime := none
  start_date : Option PyDate := none
  end_date : Option PyDate := none
  query : Option String := none
deriving DecidableEq, Repr

/-- The deterministic environment: the ollama gateway as a function of the
prompt, the TaskWarrior subprocess results, `datetime.now()`, and the
operator responses to the interactive `input()` fallbacks. -/
structure World where
  gen : String → Except PyError String
  addCmd : String → PyDateTime → Except String Unit
  tasksInRange : PyDate → PyDate → List String
  completedTasks : List String
  completeStdout : String → String
  now : PyDateTime
  stdinTaskName : String
  stdinDue : String

/-- The classification prompt built by `classify_intent`. -/
def classifyPrompt (userInput : String) : String :=
  "\n    Classify the following user input into one of these intents:\n    - TASK_MANAGEMENT: for adding, modifying, or completing tasks\n    - TASK_QUERY: for checking tasks or suggesting time slots\n    - PRODUCTIVITY: for questions or requests about being more productive\n    - LOCATION_QUERY: for finding places or getting location-based information\n    - GENERAL_QUERY: for general questions or requests not fitting the above categories\n    - UNKNOWN: if the intent is unclear\n\n    User input: \"" ++ userInput ++ "\"\n\n    Respond with the intent label and a brief explanation of why you chose it.\n    "

/-- The first intent, in declaration order, whose tag occurs in the
response text; `UNKNOWN` if none does. -/
def firstMatchingIntent (responseText : String) : Intent :=
  match intentList.find? (fun i => strContains responseText i.value) with
  | some i => i
  | none => .UNKNOWN

/-- `classify_intent`: sends the classification prompt and scans the
stripped, lower-cased response for the first matching tag. -/
def classify_intent (w : World) (userInput : String) : Except PyError Intent :=
  match w.gen (classifyPrompt userInput) with
  | .error e => .error e
  | .ok r => .ok (firstMatchingIntent (pyLower (pyStrip r)))

/-- `extract_date_time`: strict `%Y-%m-%d %H:%M` parse, falling back to
`datetime.now()` on ValueError. -/
def extract_date_time (w : World) (text : String) : PyDateTime :=
  match strptimeFull text with
  | some dt => dt
  | none => w.now

/-- Lazy group of `(?:add|modify|complete) (?:task|todo) (.*?)(?:on|at|for|$)`:
shortest run of non-newline chars up to a case-insensitive `on`, `at` or
`for`, or the end of the string (also just before one trailing newline). -/
def grabTaskName : List Char → Option (List Char)
  | [] => some []
  | c :: rest =>
    if ciIsPrefixList ['o', 'n'] (c :: rest) || ciIsPrefixList ['a', 't'] (c :: rest)
        || ciIsPrefixList ['f', 'o', 'r'] (c :: rest) then some []
    else if c = '\n' then (if rest.isEmpty then some [] else none)
    else match grabTaskName rest with
         | some g => some (c :: g)
         | none => none

/-- `re.search` for the task-name pattern, leftmost match, IGNORECASE.
The three verb alternatives and the two noun alternatives start with
distinct letters, so at most one alternative can match at a position. -/
def findTaskNameIn : List Char → Option (List Char)
  | [] => none
  | c :: rest =>
    (if ciIsPrefixList "add ".toList (c :: rest) then
       let a := (c :: rest).drop 4
       if ciIsPrefixList "task ".toList a then grabTaskName (a.drop 5)
       else if ciIsPrefixList "todo ".toList a then grabTaskName (a.drop 5)
       else none
     else if ciIsPrefixList "modify ".toList (c :: rest) then
       let a := (c :: rest).drop 7
       if ciIsPrefixList "task ".toList a then grabTaskName (a.drop 5)
       else if ciIsPrefixList "todo ".toList a then grabTaskName (a.drop 5)
       else none
     else if ciIsPrefixList "complete ".toList (c :: rest) then
       let a := (c :: rest).drop 9
       if ciIsPrefixList "task ".toList a then grabTaskName (a.drop 5)
       else if ciIsPrefixList "todo ".toList a then grabTaskName (a.drop 5)
       else none
     else none)
    <|> findTaskNameIn rest

def findTaskName (s : String) : Option String := (findTaskNameIn s.toList).map String.mk

/-- Lazy group of `(?:$|\s)`-terminated captures: the chars before the
first whitespace. -/
def grabNonSpace (cs : List Char) : List Char := cs.takeWhile (fun c => !(pyIsSpace c))

/-- `re.search(r"(?:on|at|for) (.*?)(?:$|\s)", ...)`, leftmost match,
IGNORECASE; the capture is the original-case text after the keyword and
its space, up to the first whitespace. -/
def findDueIn : List Char → Option (List Char)
  | [] => none
  | c :: rest =>
    if ciIsPrefixList "on ".toList (c :: rest) then some (grabNonSpace ((c :: rest).drop 3))
    else if ciIsPrefixList "at ".toList (c :: rest) then some (grabNonSpace ((c :: rest).drop 3))
    else if ciIsPrefixList "for ".toList (c :: rest) then some (grabNonSpace ((c :: rest).drop 4))
    else findDueIn rest

def findDuePhrase (s : String) : Option String := (findDueIn s.toList).map String.mk

/-- Lazy group of `from (.*?) to ...`: the chars (no newline, since `.`
does not match one) before the first case-insensitive literal
&quot; to &quot;, and the remainder after it. -/
def grabUntilTo : List Char → Option (List Char × List Char)
  | [] => none
  | c :: rest =>
    if ciIsPrefixList " to ".toList (c :: rest) then some ([], (c :: rest).drop 4)
    else if c = '\n' then none
    else match grabUntilTo rest with
         | some (g, r) => some (c :: g, r)
         | none => none

/-- `re.search(r"from (.*?) to (.*?)(?:$|\s)", ...)`, leftmost match,
IGNORECASE. -/
def findFromToIn : List Char → Option (List Char × List Char)
  | [] => none
  | c :: rest =>
    (if ciIsPrefixList "from ".toList (c :: rest) then
       match grabUntilTo ((c :: rest).drop 5) with
       | some (g1, r) => some (g1, grabNonSpace r)
       | none => none
     else none)
    <|> findFromToIn rest

def findFromTo (s : String) : Option (String × String) :=
  (findFromToIn s.toList).map (fun p => (String.mk p.1, String.mk p.2))

/-- `extract_structured_data`.  The interactive `input()` fallbacks are
the operator responses recorded in the world. -/
def extract_structured_data (w : World) (userInput : String) (intent : Intent) :
    Except PyError StructuredData :=
  match intent with
  | .TASK_MANAGEMENT =>
    let tn := match findTaskName userInput with
      | some g => pyStrip g
      | none => w.stdinTaskName
    let due := match findDuePhrase userInput with
      | some g => extract_date_time w g
      | none => extract_date_time w w.stdinDue
    .ok { task_name := some tn, due := some due }
  | .TASK_QUERY =>
    match findFromTo userInput with
    | some (g1, g2) =>
      match strptimeYMD g1 with
      | none => .error (.valueError "time data does not match format %Y-%m-%d")
      | some d1 =>
        match strptimeYMD g2 with
        | none => .error (.valueError "time data does not match format %Y-%m-%d")
        | some d2 => .ok { start_date := some d1, end_date := some d2 }
    | none => .ok { start_date := some w.now.date, end_date := some w.now.date.nextDay }
  | _ => .ok { query := some userInput }

/-- The prompt built by `correct_time_format`. -/
def correctionPrompt (td : String) : String :=
  "\n    The following time description is not in a standard format. Convert it into a format like \x27HH:MM AM/PM\x27:\n    \"" ++ td ++ "\"\n    "

/-- `correct_time_format`: one gateway call, stripped response verbatim. -/
def correct_time_format (w : World) (td : String) : Except PyError String :=
  match w.gen (correctionPrompt td) with
  | .error e => .error e
  | .ok r => .ok (pyStrip r)

/-- `TaskWarriorIntegration.add_task`: a failed `task add` subprocess is
re-raised as `RuntimeError`. -/
def TaskWarriorIntegration.add_task (w : World) (summary : String) (due : PyDateTime) :
    Except PyError Unit :=
  match w.addCmd summary due with
  | .ok _ => .ok ()
  | .error stderr => .error (.runtimeError ("Failed to add task: " ++ stderr))

/-- `TaskWarriorIntegration.complete_task`: true iff the tool output
contains the confirmation phrase. -/
def TaskWarriorIntegration.complete_task (w : World) (taskId : String) : Bool :=
  strContains (w.completeStdout taskId) "Completed task"

/-- `TaskWarriorIntegration.get_tasks` after its own JSON error handling:
a list of serialized task records. -/
def TaskWarriorIntegration.get_tasks (w : World) (s e : PyDate) : List String :=
  w.tasksInRange s e

/-- `TaskWarriorIntegration.get_completed_tasks` likewise. -/
def TaskWarriorIntegration.get_completed_tasks (w : World) : List String :=
  w.completedTasks

/-- `ActionExecutor.add_task`.  `all([...])` is Python truthiness: an
empty task name is as falsy as a missing one, while a datetime is always
truthy. -/
def ActionExecutor.add_task (w : World) (data : StructuredData) : Except PyError String :=
  match data.task_name, data.due with
  | some n, some dt =>
    if n = "" then .error (.valueError "Missing required data for adding task")
    else
      match TaskWarriorIntegration.add_task w n dt with
      | .ok _ => .ok ("Added task: " ++ n ++ " due on " ++ dt.str)
      | .error e => .error e
  | _, _ => .error (.valueError "Missing required data for adding task")

/-- `ActionExecutor.check_tasks`; direct dict indexing raises KeyError
when a bound is absent. -/
def ActionExecutor.check_tasks (w : World) (data : StructuredData) : Except PyError String :=
  match data.start_date, data.end_date with
  | some s, some e =>
    let tasksList := String.intercalate "\n" (TaskWarriorIntegration.get_tasks w s e)
    .ok ("Your tasks from " ++ s.str ++ " to " ++ e.str ++ ":\n" ++ tasksList)
  | _, _ => .error (.otherError "KeyError")

/-- `ActionExecutor.complete_task`. -/
def ActionExecutor.complete_task (w : World) (data : StructuredData) : Except PyError String :=
  match data.task_name with
  | some n =>
    if n = "" then .error (.valueError "Missing task name for completing task")
    else if TaskWarriorIntegration.complete_task w n then .ok ("Completed task: " ++ n)
    else .ok ("Failed to complete task: " ++ n ++ ". Task not found.")
  | none => .error (.valueError "Missing task name for completing task")

/-- The productivity prompt. -/
def productivityPrompt (q : String) : String :=
  "\n        The user has asked for help with productivity: \"" ++ q ++ "\"\n        Provide a helpful response with 2-3 practical tips for improving productivity.\n        For each tip, suggest a specific action the user can take today, including a suggested time and duration.\n        Format each action as: ACTION: [action description] | TIME: [HH:MM AM/PM] | DURATION: [minutes]\n        "

/-- `re.findall(r"ACTION: (.*?) \| TIME: (.*?) \| DURATION: (.*?)(?:\n|$)",
advice, re.DOTALL)`: scan left to right, resuming after each match.  With
DOTALL the lazy groups stop at the first occurrence of the next literal;
the third stops at the first newline (consumed) or the end. -/
def grabUntilLit (term : List Char) : List Char → Option (List Char × List Char)
  | [] => none
  | c :: rest =>
    if isPrefixList term (c :: rest) then some ([], (c :: rest).drop term.length)
    else match grabUntilLit term rest with
         | some (g, r) => some (c :: g, r)
         | none => none

def findActionsAux : Nat → List Char → List (String × String × String)
  | 0, _ => []
  | _ + 1, [] => []
  | fuel + 1, c :: rest =>
    if isPrefixList "ACTION: ".toList (c :: rest) then
      match grabUntilLit " | TIME: ".toList ((c :: rest).drop 8) with
      | some (g1, r1) =>
        match grabUntilLit " | DURATION: ".toList r1 with
        | some (g2, r2) =>
          let g3 := r2.takeWhile (fun ch => ch ≠ '\n')
          let r3 := (r2.dropWhile (fun ch => ch ≠ '\n')).drop 1
          (String.mk g1, String.mk g2, String.mk g3) :: findActionsAux fuel r3
        | none => findActionsAux fuel rest
      | none => findActionsAux fuel rest
    else findActionsAux fuel rest

def extractActions (s : String) : List (String × String × String) :=
  findActionsAux s.toList.length s.toList

/-- The datetime built at line 163 of the source:
`datetime.combine(datetime.now().date(), <parsed time>)`. -/
def mkDue (w : World) (h mi : Nat) : PyDateTime :=
  ⟨w.now.year, w.now.month, w.now.day, h, mi, 0⟩

/-- The `while True` parse-or-correct loop of `handle_productivity`,
with fuel; `none` models the loop never reaching its `break`. -/
def resolveDueTime (w : World) : Nat → String → Option (Except PyError PyDateTime)
  | 0, _ => none
  | fuel + 1, time =>
    match strptimeIMp (pyStrip time) with
    | some (h, mi) => some (.ok (mkDue w h mi))
    | none =>
      match correct_time_format w (pyStrip time) with
      | .ok t2 => resolveDueTime w fuel t2
      | .error e => some (.error e)

/-- True iff the retry loop exits normally with a parsed time. -/
def resolvesOk : Option (Except PyError PyDateTime) → Bool
  | some (.ok _) => true
  | _ => false

/-- The per-action body of `handle_productivity`: resolve a due time, then
try to add the task, appending a success or failure line either way (the
`except Exception` catches every store error). -/
def scheduleAll (w : World) (fuel : Nat) : List (String × String × String) →
    Option (Except PyError (List String))
  | [] => some (.ok [])
  | (action, time, _) :: rest =>
    match resolveDueTime w fuel time with
    | none => none
    | some (.error e) => some (.error e)
    | some (.ok dueTime) =>
      let line :=
        match TaskWarriorIntegration.add_task w (pyStrip action) dueTime with
        | .ok _ => "Added task: " ++ pyStrip action ++ " due at " ++ fmt12 dueTime
        | .error _ => "Failed to add task: " ++ pyStrip action ++ " due to an error"
      match scheduleAll w fuel rest with
      | none => none
      | some (.error e) => some (.error e)
      | some (.ok lines) => some (.ok (line :: lines))

/-- `ActionExecutor.handle_productivity`. -/
def ActionExecutor.handle_productivity (w : World) (fuel : Nat) (data : StructuredData) :
    Option (Except PyError String) :=
  match w.gen (productivityPrompt (data.query.getD "")) with
  | .error e => some (.error e)
  | .ok resp =>
    let advice := pyStrip resp
    match scheduleAll w fuel (extractActions advice) with
    | none => none
    | some (.error e) => some (.error e)
    | some (.ok lines) => some (.ok (advice ++ "\n\n" ++ String.intercalate "\n" lines))

def locationPrompt (q : String) : String :=
  "\n        The user is looking for: \"" ++ q ++ "\"\n        Provide a helpful response as if you\x27re suggesting 2-3 places or options related to their query.\n        "

/-- `ActionExecutor.handle_location_query`. -/
def ActionExecutor.handle_location_query (w : World) (data : StructuredData) :
    Except PyError String :=
  match w.gen (locationPrompt (data.query.getD "")) with
  | .error e => .error e
  | .ok r => .ok (pyStrip r)

def generalPrompt (q : String) : String :=
  "\n        The user has asked: \"" ++ q ++ "\"\n        Provide a helpful and informative response to this query.\n        "

/-- `ActionExecutor.handle_general_query`. -/
def ActionExecutor.handle_general_query (w : World) (data : StructuredData) :
    Except PyError String :=
  match w.gen (generalPrompt (data.query.getD "")) with
  | .error e => .error e
  | .ok r => .ok (pyStrip r)

/-- Common handler shape: world, loop fuel, structured data; `none` is
divergence (only `handle_productivity` can actually diverge). -/
abbrev Handler := World → Nat → StructuredData → Option (Except PyError String)

def liftH (f : World → StructuredData → Except PyError String) : Handler :=
  fun w _ d => some (f w d)

/-- The `action_map` dispatch table, total over the closed enumeration
(so the defensive `None` branch of `generate_api_call` is unreachable). -/
def action_map : Intent → Handler
  | .TASK_MANAGEMENT => liftH ActionExecutor.add_task
  | .TASK_QUERY => liftH ActionExecutor.check_tasks
  | .PRODUCTIVITY => ActionExecutor.handle_productivity
  | .LOCATION_QUERY => liftH ActionExecutor.handle_location_query
  | .GENERAL_QUERY => liftH ActionExecutor.handle_general_query
  | .UNKNOWN => liftH ActionExecutor.handle_general_query

def insightPrompt (completedTasksStr : String) : String :=
  "\n        Based on the following completed tasks, provide a brief insight or suggestion for the user:\n\n        " ++ completedTasksStr ++ "\n\n        Insight:\n        "

/-- `AISecretary.get_insights_from_completed_tasks`. -/
def AISecretary.get_insights_from_completed_tasks (w : World) : Except PyError String :=
  let completed := TaskWarriorIntegration.get_completed_tasks w
  if completed.isEmpty then .ok ""
  else
    match w.gen (insightPrompt (String.intercalate "\n" completed)) with
    | .error e => .error e
    | .ok r => .ok (pyStrip r)

/-- The body of the `try:` block of `process_request` (lines 222 to 237):
extraction, the UNKNOWN remap, dispatch, execution and enrichment. -/
def tryBody (w : World) (fuel : Nat) (userInput : String) (intent0 : Intent) :
    Option (Except PyError String) :=
  match extract_structured_data w userInput intent0 with
  | .error e => some (.error e)
  | .ok data =>
    let intent := if intent0 = .UNKNOWN then .GENERAL_QUERY else intent0
    match action_map intent w fuel data with
    | none => none
    | some (.error e) => some (.error e)
    | some (.ok result) =>
      if intent = .PRODUCTIVITY then
        some (.ok (result ++ "\n\nI\x27ve added these suggestions as tasks. You can modify or remove them as needed."))
      else if intent = .GENERAL_QUERY ∨ intent = .LOCATION_QUERY then
        some (.ok result)
      else
        match AISecretary.get_insights_from_completed_tasks w with
        | .error e => some (.error e)
        | .ok insights =>
          if insights = "" then some (.ok result)
          else some (.ok (result ++ "\n\nBased on your completed tasks, here\x27s an insight: " ++ insights))

def apologyMsg (m : String) : String :=
  "I\x27m sorry, but I couldn\x27t process your request: " ++ m ++ ". Could you please provide more details?"

def unexpectedMsg (m : String) : String :=
  "I encountered an unexpected error: " ++ m ++ ". Please try again or contact support if the issue persists."

/-- `AISecretary.process_request`.  Note that `classify_intent` is called
on line 221, before the `try:` of line 222, so its exceptions propagate
(an `.error` result); exceptions inside the body are translated into the
two user-facing messages. -/
def AISecretary.process_request (w : World) (fuel : Nat) (userInput : String) :
    Option (Except PyError String) :=
  match classify_intent w userInput with
  | .error e => some (.error e)
  | .ok intent =>
    match tryBody w fuel userInput intent with
    | none => none
    | some (.ok s) => some (.ok s)
    | some (.error (.valueError m)) => some (.ok (apologyMsg m))
    | some (.error (.runtimeError m)) => some (.ok (unexpectedMsg m))
    | some (.error (.otherError m)) => some (.ok (unexpectedMsg m))

/-- The outcome line `handle_productivity` appends for one parsed action,
as a function of that action alone (given the retry loop exits). -/
def outcomeLine (w : World) (fuel : Nat) (tr : String × String × String) : String :=
  match resolveDueTime w fuel tr.2.1 with
  | some (.ok dueTime) =>
    match TaskWarriorIntegration.add_task w (pyStrip tr.1) dueTime with
    | .ok _ => "Added task: " ++ pyStrip tr.1 ++ " due at " ++ fmt12 dueTime
    | .error _ => "Failed to add task: " ++ pyStrip tr.1 ++ " due to an error"
  | _ => ""

/-- A neutral world: the gateway answers with the empty string, the store
succeeds, stores are empty, and now is 2024-05-04 12:30:00. -/
def baseW : World where
  gen := fun _ => .ok ""
  addCmd := fun _ _ => .ok ()
  tasksInRange := fun _ _ => []
  completedTasks := []
  completeStdout := fun _ => ""
  now := ⟨2024, 5, 4, 12, 30, 0⟩
  stdinTaskName := "untitled"
  stdinDue := "soon"

/-- A world whose gateway always raises: classification itself fails. -/
def w_genFail : World :=
  { baseW with gen := fun _ => .error (.otherError "ollama connection refused") }

/-- A world whose gateway always answers with a task-query label. -/
def w_taskQuery : World :=
  { baseW with gen := fun _ => .ok "task_query" }

/-- The classification response used for the first-match witness. -/
def w_classProd : World :=
  { baseW with gen := fun _ => .ok "PRODUCTIVITY fits best" }

/-- One productivity action whose time never becomes parseable: the
correction gateway (recognised by its prompt text) always answers with an
unparseable phrase. -/
def advice_c2 : String := "ACTION: Stretch breaks | TIME: noon | DURATION: 15"

def w_badTime : World :=
  { baseW with
      gen := fun p =>
        if strContains p "not in a standard format" then .ok "sometime in the morning"
        else .ok advice_c2 }

/-- A world where the insight prompt raises but everything else works,
and one completed task exists so the insight gateway is reached. -/
def w_insightFail : World :=
  { baseW with
      gen := fun p =>
        if strContains p "Insight:" then .error (.otherError "ollama down")
        else .ok "task_management",
      completedTasks := ["completed record"] }

/-- Like `w_insightFail` but the insight call succeeds. -/
def w_insightOk : World :=
  { baseW with
      gen := fun p =>
        if strContains p "Insight:" then .ok "Keep going"
        else .ok "task_management",
      completedTasks := ["completed record"] }

/-- Two well-formed productivity actions; the store rejects the first
summary and accepts the second. -/
def advice_c4 : String :=
  "ACTION: Email triage | TIME: 09:00 AM | DURATION: 30\nACTION: Plan day | TIME: 02:15 PM | DURATION: 10"

def w_twoActions : World :=
  { baseW with
      gen := fun p => if strContains p "practical tips" then .ok advice_c4 else .ok "",
      addCmd := fun s _ => if s = "Email triage" then .error "taskwarrior unavailable" else .ok () }

/-- A world whose task tool never prints the completion phrase. -/
def w_noMatch : World :=
  { baseW with completeStdout := fun _ => "No matches." }

/-- Structured data with both keys present but an empty task name. -/
def dEmptyName : StructuredData :=
  { task_name := some "", due := some ⟨2024, 1, 1, 9, 0, 0⟩ }

/-- Structured data for the add-task confirmation witness. -/
def dBuyMilk : StructuredData :=
  { task_name := some "Buy milk", due := some ⟨2024, 1, 1, 9, 0, 0⟩ }

/-- Structured data for the complete-task witness. -/
def dPayRent : StructuredData := { task_name := some "pay rent" }

/-- Structured data for the empty-range check-tasks witness. -/
def dRange : StructuredData :=
  { start_date := some ⟨2024, 1, 1⟩, end_date := some ⟨2024, 1, 2⟩ }

theorem strToList_append (a b : String) : (a ++ b).toList = a.toList ++ b.toList :=
  String.data_append a b

theorem listHasSub_nil_needle (l : List Char) : listHasSub [] l = true := by
  cases l <;> simp [listHasSub, isPrefixList]

theorem isPrefixList_self_append (n y : List Char) : isPrefixList n (n ++ y) = true := by
  induction n with
  | nil => simp [isPrefixList]
  | cons a as ih => simpa [isPrefixList] using ih

theorem listHasSub_self_append (n y : List Char) : listHasSub n (n ++ y) = true := by
  cases n with
  | nil => simpa using listHasSub_nil_needle y
  | cons a as =>
    have h := isPrefixList_self_append (a :: as) y
    simp only [List.cons_append] at h
    simp [listHasSub, h]

theorem listHasSub_refl (n : List Char) : listHasSub n n = true := by
  have := listHasSub_self_append n []
  simpa using this

theorem listHasSub_cons_ext (n : List Char) (c : Char) (l : List Char)
    (h : listHasSub n l = true) : listHasSub n (c :: l) = true := by
  cases n with
  | nil => simp [listHasSub, isPrefixList]
  | cons a as => simp [listHasSub, h]

theorem listHasSub_append_ext (x n l : List Char) (h : listHasSub n l = true) :
    listHasSub n (x ++ l) = true := by
  induction x with
  | nil => simpa using h
  | cons c xs ih => exact listHasSub_cons_ext n c (xs ++ l) ih

theorem isPrefixList_append_right (n l y : List Char) (h : isPrefixList n l = true) :
    isPrefixList n (l ++ y) = true := by
  induction n generalizing l with
  | nil => simp [isPrefixList]
  | cons a as ih =>
    cases l with
    | nil => simp [isPrefixList] at h
    | cons b bs =>
      simp only [isPrefixList, Bool.and_eq_true] at h ⊢
      exact ⟨h.1, ih bs h.2⟩

theorem listHasSub_append_right (n l y : List Char) (h : listHasSub n l = true) :
    listHasSub n (l ++ y) = true := by
  induction l with
  | nil =>
    simp only [listHasSub] at h
    rw [List.isEmpty_iff] at h
    subst h
    simpa using listHasSub_nil_needle y
  | cons c rest ih =>
    simp only [listHasSub, Bool.or_eq_true] at h
    rcases h with h | h
    · have h2 := isPrefixList_append_right n (c :: rest) y h
      simp only [List.cons_append] at h2
      simp [listHasSub, h2]
    · exact listHasSub_cons_ext n c (rest ++ y) (ih h)

theorem strContains_right_part (x n : String) : strContains (x ++ n) n = true := by
  unfold strContains
  rw [strToList_append]
  exact listHasSub_append_ext x.toList n.toList n.toList (listHasSub_refl n.toList)

theorem strContains_mid_right (x n y : String) : strContains ((x ++ n) ++ y) n = true := by
  unfold strContains
  rw [strToList_append, strToList_append]
  exact listHasSub_append_right n.toList (x.toList ++ n.toList) y.toList
    (listHasSub_append_ext x.toList n.toList n.toList (listHasSub_refl n.toList))

theorem readYear4_suffix (cs : List Char) (y : Nat) (r : List Char)
    (h : readYear4 cs = some (y, r)) : r <:+ cs := by
  match cs with
  | [] => simp [readYear4] at h
  | [a] => simp [readYear4] at h
  | [a, b] => simp [readYear4] at h
  | [a, b, c] => simp [readYear4] at h
  | a :: b :: c :: d :: rest =>
    simp only [readYear4] at h
    split at h
    · simp only [Option.some.injEq, Prod.mk.injEq] at h
      rw [← h.2]
      exact ⟨[a, b, c, d], rfl⟩
    · exact absurd h (by simp)

theorem readLit_suffix (ch : Char) (cs : List Char) (r : List Char)
    (h : readLit ch cs = some r) : r <:+ cs := by
  match cs with
  | [] => simp [readLit] at h
  | c :: rest =>
    simp only [readLit] at h
    split at h
    · simp only [Option.some.injEq] at h
      rw [← h]
      exact ⟨[c], rfl⟩
    · exact absurd h (by simp)

theorem read2or1_suffix (ok2 ok1 : Nat → Bool) (cs : List Char) (v : Nat) (r : List Char)
    (h : read2or1 ok2 ok1 cs = some (v, r)) : r <:+ cs := by
  match cs with
  | [] => simp [read2or1] at h
  | [a] =>
    simp only [read2or1] at h
    split at h
    · simp only [Option.some.injEq, Prod.mk.injEq] at h
      rw [← h.2]
      exact ⟨[a], rfl⟩
    · exact absurd h (by simp)
  | a :: b :: rest =>
    simp only [read2or1] at h
    split at h
    · simp only [Option.some.injEq, Prod.mk.injEq] at h
      rw [← h.2]
      exact ⟨[a, b], rfl⟩
    · split at h
      · simp only [Option.some.injEq, Prod.mk.injEq] at h
        rw [← h.2]
        exact ⟨[a], rfl⟩
      · exact absurd h (by simp)

theorem readSpaces1_space (cs : List Char) (r : List Char)
    (h : readSpaces1 cs = some r) : ∃ c ∈ cs, pyIsSpace c = true := by
  match cs with
  | [] => simp [readSpaces1] at h
  | c :: rest =>
    simp only [readSpaces1] at h
    split at h
    · exact ⟨c, List.mem_cons_self c rest, by assumption⟩
    · exact absurd h (by simp)

theorem strptimeFullList_has_space (cs : List Char) (dt : PyDateTime)
    (h : strptimeFullList cs = some dt) : ∃ c ∈ cs, pyIsSpace c = true := by
  simp only [strptimeFullList] at h
  split at h
  · exact absurd h (by simp)
  case _ y r1 h1 =>
  split at h
  · exact absurd h (by simp)
  case _ r2 h2 =>
  split at h
  · exact absurd h (by simp)
  case _ mo r3 h3 =>
  split at h
  · exact absurd h (by simp)
  case _ r4 h4 =>
  split at h
  · exact absurd h (by simp)
  case _ dy r5 h5 =>
  split at h
  · exact absurd h (by simp)
  case _ r6 h6 =>
  have hsuf : r5 <:+ cs :=
    ((((read2or1_suffix dayOk2 oneToNine r4 dy r5 h5).trans
        (readLit_suffix '-' r3 r4 h4)).trans
        (read2or1_suffix monthOk2 oneToNine r2 mo r3 h3)).trans
        (readLit_suffix '-' r1 r2 h2)).trans
        (readYear4_suffix cs y r1 h1)
  obtain ⟨c, hc, hsp⟩ := readSpaces1_space r5 r6 h6
  exact ⟨c, hsuf.subset hc, hsp⟩

theorem strptimeFull_no_space (s : String)
    (hns : ∀ c ∈ s.toList, pyIsSpace c = false) : strptimeFull s = none := by
  cases h : strptimeFull s with
  | none => rfl
  | some dt =>
    obtain ⟨c, hc, hsp⟩ := strptimeFullList_has_space s.toList dt h
    rw [hns c hc] at hsp
    cases hsp

theorem grabNonSpace_no_space (cs : List Char) :
    ∀ c ∈ grabNonSpace cs, pyIsSpace c = false := by
  intro c hc
  have := List.mem_takeWhile_imp hc
  simpa using this

theorem findDueIn_no_space (cs : List Char) (g : List Char)
    (h : findDueIn cs = some g) : ∀ c ∈ g, pyIsSpace c = false := by
  induction cs with
  | nil => simp [findDueIn] at h
  | cons c rest ih =>
    simp only [findDueIn] at h
    split at h
    · simp only [Option.some.injEq] at h
      rw [← h]
      exact grabNonSpace_no_space _
    · split at h
      · simp only [Option.some.injEq] at h
        rw [← h]
        exact grabNonSpace_no_space _
      · split at h
        · simp only [Option.some.injEq] at h
          rw [← h]
          exact grabNonSpace_no_space _
        · exact ih h

/-- Claim C6 counterexample: a structured-data dict in which both
`task_name` and `due` are present but the task name is the empty string.
`add_task` raises the ValidationError anyway (Python truthiness), so the
"if and only if ... missing" of the claim fails in the only-if
direction. -/
theorem add_task_empty_name_counterexample :
    dEmptyName.task_name ≠ none ∧ dEmptyName.due ≠ none ∧
    ActionExecutor.add_task baseW dEmptyName =
      .error (.valueError "Missing required data for adding task") :=
  ⟨by decide, by decide, by rfl⟩

/-- Claim C6 (amended): `add_task` raises the ValidationError if and only
if `task_name` is missing or empty, or `due` is missing; when the name is
present and non-empty and the due is present, a successful store call
yields the confirmation string containing the task name and the formatted
due time, and a store failure propagates as a RuntimeError. -/
theorem add_task_validation_and_confirmation (w : World) (d : StructuredData) :
    ((∃ m, ActionExecutor.add_task w d = .error (.valueError m)) ↔
      (d.task_name = none ∨ d.task_name = some "" ∨ d.due = none)) ∧
    (∀ n dt, d.task_name = some n → d.due = some dt → n ≠ "" →
      (w.addCmd n dt = .ok () →
        ActionExecutor.add_task w d = .ok ("Added task: " ++ n ++ " due on " ++ dt.str) ∧
        strContains ("Added task: " ++ n ++ " due on " ++ dt.str) n = true ∧
        strContains ("Added task: " ++ n ++ " due on " ++ dt.str) dt.str = true) ∧
      (∀ err, w.addCmd n dt = .error err →
        ActionExecutor.add_task w d = .error (.runtimeError ("Failed to add task: " ++ err)))) := by
  constructor
  · constructor
    · rintro ⟨m, hm⟩
      rcases hn : d.task_name with _ | n
      · exact Or.inl rfl
      · rcases hd : d.due with _ | dt
        · exact Or.inr (Or.inr rfl)
        · by_cases hne : n = ""
          · subst hne
            exact Or.inr (Or.inl rfl)
          · exfalso
            simp only [ActionExecutor.add_task, hn, hd] at hm
            rw [if_neg hne] at hm
            rcases hcmd : w.addCmd n dt with u | err
            · simp [TaskWarriorIntegration.add_task, hcmd] at hm
            · simp [TaskWarriorIntegration.add_task, hcmd] at hm
    · rintro (h | h | h)
      · exact ⟨"Missing required data for adding task", by simp [ActionExecutor.add_task, h]⟩
      · rcases hd : d.due with _ | dt
        · exact ⟨"Missing required data for adding task", by simp [ActionExecutor.add_task, h, hd]⟩
        · exact ⟨"Missing required data for adding task", by simp [ActionExecutor.add_task, h, hd]⟩
      · rcases hn : d.task_name with _ | n
        · exact ⟨"Missing required data for adding task", by simp [ActionExecutor.add_task, h, hn]⟩
        · exact ⟨"Missing required data for adding task", by simp [ActionExecutor.add_task, h, hn]⟩
  · intro n dt hn hd hne
    constructor
    · intro hcmd
      refine ⟨?_, ?_, ?_⟩
      · simp [ActionExecutor.add_task, hn, hd, hne, TaskWarriorIntegration.add_task, hcmd]
      · unfold strContains
        simp only [strToList_append, List.append_assoc]
        exact listHasSub_append_ext _ _ _ (listHasSub_self_append _ _)
      · unfold strContains
        simp only [strToList_append, List.append_assoc]
        exact listHasSub_append_ext _ _ _ (listHasSub_append_ext _ _ _
          (listHasSub_append_ext _ _ _ (listHasSub_refl _)))
    · intro err hcmd
      simp [ActionExecutor.add_task, hn, hd, hne, TaskWarriorIntegration.add_task, hcmd]

/-- Claim C6 witness: the amended theorem at `task_name = "Buy milk"`,
`due = 2024-01-01 09:00`. -/
theorem add_task_validation_and_confirmation_witness :
    ActionExecutor.add_task baseW dBuyMilk =
      .ok ("Added task: " ++ "Buy milk" ++ " due on " ++ PyDateTime.str ⟨2024, 1, 1, 9, 0, 0⟩) ∧
    strContains ("Added task: " ++ "Buy milk" ++ " due on " ++ PyDateTime.str ⟨2024, 1, 1, 9, 0, 0⟩)
      "Buy milk" = true ∧
    strContains ("Added task: " ++ "Buy milk" ++ " due on " ++ PyDateTime.str ⟨2024, 1, 1, 9, 0, 0⟩)
      (PyDateTime.str ⟨2024, 1, 1, 9, 0, 0⟩) = true :=
  ((add_task_validation_and_confirmation baseW dBuyMilk).2 "Buy milk" ⟨2024, 1, 1, 9, 0, 0⟩
    rfl rfl (by decide)).1 rfl

/-- Claim C7: `complete_task` raises the ValidationError when the task
name is missing; with a name present, a store transcript lacking the
confirmation phrase yields the not-found string (an ordinary return, not
an exception), and one containing it yields the success string. -/
theorem complete_task_reports_not_found (w : World) (d : StructuredData) :
    (d.task_name = none →
      ActionExecutor.complete_task w d =
        .error (.valueError "Missing task name for completing task")) ∧
    (∀ n, d.task_name = some n → n ≠ "" →
      (strContains (w.completeStdout n) "Completed task" = false →
        ActionExecutor.complete_task w d =
          .ok ("Failed to complete task: " ++ n ++ ". Task not found.")) ∧
      (strContains (w.completeStdout n) "Completed task" = true →
        ActionExecutor.complete_task w d = .ok ("Completed task: " ++ n))) := by
  refine ⟨?_, ?_⟩
  · intro h
    simp [ActionExecutor.complete_task, h]
  · intro n hn hne
    refine ⟨?_, ?_⟩
    · intro hs
      simp [ActionExecutor.complete_task, hn, hne, TaskWarriorIntegration.complete_task, hs]
    · intro hs
      simp [ActionExecutor.complete_task, hn, hne, TaskWarriorIntegration.complete_task, hs]

/-- Claim C7 witness: with the store printing "No matches.", completing
"pay rent" returns the not-found string. -/
theorem complete_task_reports_not_found_witness :
    ActionExecutor.complete_task w_noMatch dPayRent =
      .ok ("Failed to complete task: " ++ "pay rent" ++ ". Task not found.") :=
  ((complete_task_reports_not_found w_noMatch dPayRent).2 "pay rent" rfl (by decide)).1 (by decide)

/-- Claim C9: when the store returns no tasks for the queried range,
`check_tasks` returns normally with a response built from the literal
start and end dates followed by no task lines at all. -/
theorem check_tasks_empty_is_header_only (w : World) (d : StructuredData) (s e : PyDate)
    (hs : d.start_date = some s) (he : d.end_date = some e)
    (hemp : w.tasksInRange s e = []) :
    ActionExecutor.check_tasks w d =
      .ok ("Your tasks from " ++ s.str ++ " to " ++ e.str ++ ":\n") ∧
    strContains ("Your tasks from " ++ s.str ++ " to " ++ e.str ++ ":\n") s.str = true ∧
    strContains ("Your tasks from " ++ s.str ++ " to " ++ e.str ++ ":\n") e.str = true := by
  refine ⟨?_, ?_, ?_⟩
  · simp [ActionExecutor.check_tasks, TaskWarriorIntegration.get_tasks, hs, he, hemp,
      String.intercalate]
  · unfold strContains
    simp only [strToList_append, List.append_assoc]
    exact listHasSub_append_ext _ _ _ (listHasSub_self_append _ _)
  · unfold strContains
    simp only [strToList_append, List.append_assoc]
    exact listHasSub_append_ext _ _ _ (listHasSub_append_ext _ _ _
      (listHasSub_append_ext _ _ _ (listHasSub_self_append _ _)))

/-- Claim C9 witness: an empty range query over 2024-01-01 .. 2024-01-02. -/
theorem check_tasks_empty_is_header_only_witness :
    ActionExecutor.check_tasks baseW dRange =
      .ok ("Your tasks from " ++ PyDate.str ⟨2024, 1, 1⟩ ++ " to " ++ PyDate.str ⟨2024, 1, 2⟩ ++ ":\n") :=
  (check_tasks_empty_is_header_only baseW dRange ⟨2024, 1, 1⟩ ⟨2024, 1, 2⟩ rfl rfl rfl).1

/-- Claim C10: for TASK_QUERY extraction, a matching `from .. to ..`
range whose components fail the strict `%Y-%m-%d` parse raises ValueError
(either component), while no match at all silently defaults to
today .. today+1. -/
theorem task_query_extraction_asymmetry (w : World) (u : String) :
    (∀ g1 g2, findFromTo u = some (g1, g2) → strptimeYMD g1 = none →
      extract_structured_data w u Intent.TASK_QUERY =
        .error (.valueError "time data does not match format %Y-%m-%d")) ∧
    (∀ g1 g2 d1, findFromTo u = some (g1, g2) → strptimeYMD g1 = some d1 →
      strptimeYMD g2 = none →
      extract_structured_data w u Intent.TASK_QUERY =
        .error (.valueError "time data does not match format %Y-%m-%d")) ∧
    (findFromTo u = none →
      extract_structured_data w u Intent.TASK_QUERY =
        .ok { start_date := some w.now.date, end_date := some w.now.date.nextDay }) := by
  refine ⟨?_, ?_, ?_⟩
  · intro g1 g2 hf hp
    simp [extract_structured_data, hf, hp]
  · intro g1 g2 d1 hf hp1 hp2
    simp [extract_structured_data, hf, hp1, hp2]
  · intro hf
    simp [extract_structured_data, hf]

/-- Claim C10 witness: `from 2024-99-99 to 2024-01-02` raises; the
matched first component is not a valid date. -/
theorem task_query_extraction_asymmetry_witness :
    extract_structured_data baseW "tasks from 2024-99-99 to 2024-01-02" Intent.TASK_QUERY =
      .error (.valueError "time data does not match format %Y-%m-%d") :=
  (task_query_extraction_asymmetry baseW "tasks from 2024-99-99 to 2024-01-02").1
    "2024-99-99" "2024-01-02" (by rfl) (by rfl)

/-- Claim C5: `classify_intent` returns the first intent in declaration
order whose tag is a substring of the stripped lower-cased model response
and UNKNOWN when no tag occurs, and the orchestrator body dispatches an
UNKNOWN classification through the general-query handler (the remap
happens after extraction, which stores the raw text as the query). -/
theorem classify_first_match_order_and_remap (w : World) (fuel : Nat) (u resp : String)
    (hg : w.gen (classifyPrompt u) = .ok resp) :
    ((∀ i ∈ intentList, strContains (pyLower (pyStrip resp)) i.value = false) →
      classify_intent w u = .ok Intent.UNKNOWN) ∧
    (∀ i : Intent, strContains (pyLower (pyStrip resp)) i.value = true →
      (∀ j ∈ intentList, intentIdx j < intentIdx i →
        strContains (pyLower (pyStrip resp)) j.value = false) →
      classify_intent w u = .ok i) ∧
    (tryBody w fuel u Intent.UNKNOWN =
      some (ActionExecutor.handle_general_query w { query := some u })) := by
  refine ⟨?_, ?_, ?_⟩
  · intro h
    have hf : intentList.find? (fun i => strContains (pyLower (pyStrip resp)) i.value) = none := by
      rw [List.find?_eq_none]
      intro x hx
      simp [h x hx]
    simp [classify_intent, hg, firstMatchingIntent, hf]
  · intro i hm he
    cases i with
    | TASK_MANAGEMENT =>
      simp [classify_intent, hg, firstMatchingIntent, intentList, List.find?, hm]
    | TASK_QUERY =>
      have h0 := he .TASK_MANAGEMENT (by decide) (by decide)
      simp [classify_intent, hg, firstMatchingIntent, intentList, List.find?, hm, h0]
    | PRODUCTIVITY =>
      have h0 := he .TASK_MANAGEMENT (by decide) (by decide)
      have h1 := he .TASK_QUERY (by decide) (by decide)
      simp [classify_intent, hg, firstMatchingIntent, intentList, List.find?, hm, h0, h1]
    | LOCATION_QUERY =>
      have h0 := he .TASK_MANAGEMENT (by decide) (by decide)
      have h1 := he .TASK_QUERY (by decide) (by decide)
      have h2 := he .PRODUCTIVITY (by decide) (by decide)
      simp [classify_intent, hg, firstMatchingIntent, intentList, List.find?, hm, h0, h1, h2]
    | GENERAL_QUERY =>
      have h0 := he .TASK_MANAGEMENT (by decide) (by decide)
      have h1 := he .TASK_QUERY (by decide) (by decide)
      have h2 := he .PRODUCTIVITY (by decide) (by decide)
      have h3 := he .LOCATION_QUERY (by decide) (by decide)
      simp [classify_intent, hg, firstMatchingIntent, intentList, List.find?, hm, h0, h1, h2, h3]
    | UNKNOWN =>
      have h0 := he .TASK_MANAGEMENT (by decide) (by decide)
      have h1 := he .TASK_QUERY (by decide) (by decide)
      have h2 := he .PRODUCTIVITY (by decide) (by decide)
      have h3 := he .LOCATION_QUERY (by decide) (by decide)
      have h4 := he .GENERAL_QUERY (by decide) (by decide)
      simp [classify_intent, hg, firstMatchingIntent, intentList, List.find?, hm, h0, h1, h2, h3, h4]
  · rcases hq : ActionExecutor.handle_general_query w { query := some u } with e | r
    · simp [tryBody, extract_structured_data, action_map, liftH, hq]
    · simp [tryBody, extract_structured_data, action_map, liftH, hq]

/-- Claim C5 witness: a response naming only PRODUCTIVITY classifies as
PRODUCTIVITY. -/
theorem classify_first_match_order_and_remap_witness :
    classify_intent w_classProd "help me be efficient" = .ok Intent.PRODUCTIVITY :=
  (classify_first_match_order_and_remap w_classProd 0 "help me be efficient"
    "PRODUCTIVITY fits best" rfl).2.1 Intent.PRODUCTIVITY (by decide) (by decide)

/-- Claim C1 counterexample: a gateway failure during intent
classification happens before the `try:` block and therefore escapes
`process_request` as a raw exception instead of a response string. -/
theorem classification_error_escapes :
    AISecretary.process_request w_genFail 5 "hello" =
      some (.error (.otherError "ollama connection refused")) := by rfl

/-- Claim C1 (amended): once classification has returned an intent, every
terminating run of `process_request` produces a response string, never an
exception: a ValueError raised in the body becomes the apologetic message
carrying the original error text, any other exception becomes the generic
unexpected-error message, and a normal body result is returned as is. -/
theorem error_translation_after_classification (w : World) (fuel : Nat) (u : String) (i : Intent)
    (hc : classify_intent w u = .ok i) :
    (∀ e, AISecretary.process_request w fuel u ≠ some (.error e)) ∧
    (∀ m, tryBody w fuel u i = some (.error (.valueError m)) →
      AISecretary.process_request w fuel u = some (.ok (apologyMsg m))) ∧
    (∀ e, tryBody w fuel u i = some (.error e) → (∀ m, e ≠ PyError.valueError m) →
      AISecretary.process_request w fuel u = some (.ok (unexpectedMsg e.msg))) ∧
    (∀ s, tryBody w fuel u i = some (.ok s) →
      AISecretary.process_request w fuel u = some (.ok s)) := by
  refine ⟨?_, ?_, ?_, ?_⟩
  · intro e he
    simp only [AISecretary.process_request, hc] at he
    rcases htb : tryBody w fuel u i with _ | r
    · rw [htb] at he
      simp at he
    · rcases r with pe | s
      · rcases pe with m | m | m <;> rw [htb] at he <;> simp at he
      · rw [htb] at he
        simp at he
  · intro m htb
    simp [AISecretary.process_request, hc, htb]
  · intro e htb hne
    rcases e with m | m | m
    · exact absurd rfl (hne m)
    · simp [AISecretary.process_request, hc, htb, PyError.msg]
    · simp [AISecretary.process_request, hc, htb, PyError.msg]
  · intro s htb
    simp [AISecretary.process_request, hc, htb]

/-- Claim C1 witness: a malformed date range raises ValueError inside the
body and is translated into the apologetic message. -/
theorem error_translation_after_classification_witness :
    AISecretary.process_request w_taskQuery 3 "tasks from 2024-99-99 to x" =
      some (.ok (apologyMsg "time data does not match format %Y-%m-%d")) :=
  (error_translation_after_classification w_taskQuery 3 "tasks from 2024-99-99 to x"
    Intent.TASK_QUERY (by rfl)).2.1 "time data does not match format %Y-%m-%d" (by rfl)

set_option maxRecDepth 16384 in
/-- Claim C3 counterexample: with one completed task on record and an
insight gateway that raises, a TASK_MANAGEMENT request whose handler
succeeded is answered with the generic unexpected-error message; the
handler result is discarded rather than returned with the insight
absent. -/
theorem insight_failure_discards_handler_result :
    AISecretary.process_request w_insightFail 5 "add task Buy milk on tomorrow" =
      some (.ok (unexpectedMsg "ollama down")) ∧
    unexpectedMsg "ollama down" ≠
      "Added task: " ++ "Buy milk" ++ " due on " ++ PyDateTime.str w_insightFail.now :=
  ⟨by rfl, by decide⟩

/-- Claim C3 (amended): for the intents that reach the insight step (after
the UNKNOWN remap these are TASK_MANAGEMENT and TASK_QUERY), the insight
call is inside the orchestrator try block but has no handler of its own:
if it raises, the whole request returns the translated error message and
the handler result is lost; the handler result is returned (with the
insight appended when non-empty) only when the insight call does not
raise. -/
theorem insight_outcome_determines_response (w : World) (fuel : Nat) (u : String) (i : Intent)
    (d : StructuredData) (res : String)
    (hi : i = .TASK_MANAGEMENT ∨ i = .TASK_QUERY)
    (hc : classify_intent w u = .ok i)
    (hx : extract_structured_data w u i = .ok d)
    (hh : action_map i w fuel d = some (.ok res)) :
    (∀ e, AISecretary.get_insights_from_completed_tasks w = .error e →
      (∀ m, e ≠ PyError.valueError m) →
      AISecretary.process_request w fuel u = some (.ok (unexpectedMsg e.msg))) ∧
    (∀ s, AISecretary.get_insights_from_completed_tasks w = .ok s → s ≠ "" →
      AISecretary.process_request w fuel u =
        some (.ok (res ++ "\n\nBased on your completed tasks, here\x27s an insight: " ++ s))) ∧
    (AISecretary.get_insights_from_completed_tasks w = .ok "" →
      AISecretary.process_request w fuel u = some (.ok res)) := by
  have key : tryBody w fuel u i =
      (match AISecretary.get_insights_from_completed_tasks w with
       | .error e => some (.error e)
       | .ok s =>
         if s = "" then some (.ok res)
         else some (.ok (res ++ "\n\nBased on your completed tasks, here\x27s an insight: " ++ s))) := by
    rcases hi with rfl | rfl <;>
      rcases hgi : AISecretary.get_insights_from_completed_tasks w with e | s <;>
        simp [tryBody, hx, hh, hgi]
  refine ⟨?_, ?_, ?_⟩
  · intro e hgi hne
    have h2 : tryBody w fuel u i = some (.error e) := by rw [key, hgi]
    rcases e with m | m | m
    · exact absurd rfl (hne m)
    · simp [AISecretary.process_request, hc, h2, PyError.msg]
    · simp [AISecretary.process_request, hc, h2, PyError.msg]
  · intro s hgi hs
    have h2 : tryBody w fuel u i =
        some (.ok (res ++ "\n\nBased on your completed tasks, here\x27s an insight: " ++ s)) := by
      rw [key, hgi]
      simp [hs]
    simp [AISecretary.process_request, hc, h2]
  · intro hgi
    have h2 : tryBody w fuel u i = some (.ok res) := by
      rw [key, hgi]
      simp
    simp [AISecretary.process_request, hc, h2]

set_option maxRecDepth 16384 in
/-- Claim C3 witness: the amended theorem with a succeeding insight call;
the handler result comes back with the insight appended. -/
theorem insight_outcome_determines_response_witness :
    AISecretary.process_request w_insightOk 4 "add task Buy milk on tomorrow" =
      some (.ok ("Added task: Buy milk due on 2024-05-04 12:30:00" ++
        "\n\nBased on your completed tasks, here\x27s an insight: " ++ "Keep going")) :=
  (insight_outcome_determines_response w_insightOk 4 "add task Buy milk on tomorrow"
    Intent.TASK_MANAGEMENT { task_name := some "Buy milk", due := some w_insightOk.now }
    "Added task: Buy milk due on 2024-05-04 12:30:00"
    (Or.inl rfl) (by rfl) (by rfl) (by rfl)).2.1 "Keep going" (by rfl) (by decide)

/-- Claim C8 counterexample: for an input whose due phrase is the valid
string `2024-01-01 09:00`, the lazy capture stops at the first whitespace,
so the matched phrase is only `2024-01-01`, the strict parse of which
fails, and the extracted due is `datetime.now()`, not the strict parse of
the phrase. -/
theorem due_phrase_truncation_counterexample :
    findDuePhrase "add task Buy milk on 2024-01-01 09:00" = some "2024-01-01" ∧
    strptimeFull "2024-01-01 09:00" = some ⟨2024, 1, 1, 9, 0, 0⟩ ∧
    extract_structured_data baseW "add task Buy milk on 2024-01-01 09:00" Intent.TASK_MANAGEMENT =
      .ok { task_name := some "Buy milk", due := some baseW.now } ∧
    baseW.now ≠ (⟨2024, 1, 1, 9, 0, 0⟩ : PyDateTime) :=
  ⟨by rfl, by rfl, by rfl, by decide⟩

/-- Claim C8 (amended): whenever the due pattern matches, the captured
phrase contains no whitespace, so the strict `%Y-%m-%d %H:%M` parse
(whose format demands a space) always fails and extraction silently uses
the current timestamp; extraction never raises on this path. -/
theorem due_extraction_falls_back_to_now (w : World) (u g : String)
    (h : findDuePhrase u = some g) :
    strptimeFull g = none ∧
    ∃ tn, extract_structured_data w u Intent.TASK_MANAGEMENT =
      .ok { task_name := some tn, due := some w.now } := by
  have hnone : strptimeFull g = none := by
    unfold findDuePhrase at h
    rcases hf : findDueIn u.toList with _ | g2
    · rw [hf] at h
      simp at h
    · rw [hf] at h
      simp only [Option.map, Option.some.injEq] at h
      subst h
      exact strptimeFull_no_space _ (fun c hc => findDueIn_no_space u.toList g2 hf c hc)
  refine ⟨hnone, ?_⟩
  cases hft : findTaskName u with
  | some g2 =>
    exact ⟨pyStrip g2, by simp [extract_structured_data, h, hft, extract_date_time, hnone]⟩
  | none =>
    exact ⟨w.stdinTaskName, by simp [extract_structured_data, h, hft, extract_date_time, hnone]⟩

/-- Claim C8 witness: the amended theorem on `pay bill at noon`. -/
theorem due_extraction_falls_back_to_now_witness :
    strptimeFull "noon" = none ∧
    ∃ tn, extract_structured_data baseW "pay bill at noon" Intent.TASK_MANAGEMENT =
      .ok { task_name := some tn, due := some baseW.now } :=
  due_extraction_falls_back_to_now baseW "pay bill at noon" "noon" (by rfl)

theorem resolveDueTime_badTime_stuck :
    ∀ n, resolveDueTime w_badTime n "sometime in the morning" = none := by
  intro n
  induction n with
  | zero => rfl
  | succ k ih => exact Eq.trans (by rfl) ih

theorem resolveDueTime_badTime_noon :
    ∀ n, resolveDueTime w_badTime n "noon" = none := by
  intro n
  cases n with
  | zero => rfl
  | succ k => exact Eq.trans (by rfl) (resolveDueTime_badTime_stuck k)

set_option maxRecDepth 16384 in
/-- Claim C2 (refuted by the code, which is the bug): with a gateway
whose advice contains one action tagged `TIME: noon` and whose correction
replies are the fixed unparseable phrase, the `while True` parse-correct
loop of `handle_productivity` never reaches its `break`: no amount of
fuel makes the handler return. -/
theorem productivity_time_loop_diverges :
    ∀ fuel, ActionExecutor.handle_productivity w_badTime fuel
      { query := some "how can I focus" } = none := by
  intro fuel
  have hg : w_badTime.gen (productivityPrompt "how can I focus") = .ok advice_c2 := by rfl
  have hx : extractActions (pyStrip advice_c2) = [("Stretch breaks", "noon", "15")] := by rfl
  have hn := resolveDueTime_badTime_noon fuel
  simp [ActionExecutor.handle_productivity, hg, hx, scheduleAll, hn]

theorem scheduleAll_map (w : World) (fuel : Nat) :
    ∀ l : List (String × String × String),
      (∀ tr ∈ l, resolvesOk (resolveDueTime w fuel tr.2.1) = true) →
      scheduleAll w fuel l = some (.ok (l.map (outcomeLine w fuel))) := by
  intro l
  induction l with
  | nil => intro _; rfl
  | cons a rest ih =>
    intro h
    obtain ⟨a1, a2, a3⟩ := a
    have ha : resolvesOk (resolveDueTime w fuel a2) = true :=
      h (a1, a2, a3) (List.mem_cons_self _ _)
    rcases hr : resolveDueTime w fuel a2 with _ | r
    · rw [hr] at ha
      simp [resolvesOk] at ha
    · rcases r with e | due
      · rw [hr] at ha
        simp [resolvesOk] at ha
      · have hrest := ih (fun tr htr => h tr (List.mem_cons_of_mem _ htr))
        rcases hadd : TaskWarriorIntegration.add_task w (pyStrip a1) due with e2 | u2
        · simp [scheduleAll, hr, hrest, outcomeLine, hadd]
        · simp [scheduleAll, hr, hrest, outcomeLine, hadd]

/-- Claim C4: whenever the model advice parses into N action triples and
the retry loop of each triple resolves a due time, the handler returns the
advice followed by exactly one outcome line per parsed action, and each
line is a function of that action alone (so a store failure on one action
cannot suppress the line of another action). -/
theorem productivity_outcome_lines_per_action (w : World) (fuel : Nat) (q advice : String)
    (hg : w.gen (productivityPrompt q) = .ok advice)
    (hterm : ∀ tr ∈ extractActions (pyStrip advice),
      resolvesOk (resolveDueTime w fuel tr.2.1) = true) :
    ActionExecutor.handle_productivity w fuel { query := some q } =
      some (.ok (pyStrip advice ++ "\n\n" ++
        String.intercalate "\n" ((extractActions (pyStrip advice)).map (outcomeLine w fuel)))) ∧
    ((extractActions (pyStrip advice)).map (outcomeLine w fuel)).length =
      (extractActions (pyStrip advice)).length := by
  constructor
  · have hs := scheduleAll_map w fuel (extractActions (pyStrip advice)) hterm
    simp [ActionExecutor.handle_productivity, hg, hs]
  · exact List.length_map _ _

/-- Claim C4 witness: two well-formed action lines; the store rejects the
first and accepts the second, and both outcome lines appear. -/
theorem productivity_outcome_lines_per_action_witness :
    ActionExecutor.handle_productivity w_twoActions 1 { query := some "focus" } =
      some (.ok ("ACTION: Email triage | TIME: 09:00 AM | DURATION: 30\nACTION: Plan day | TIME: 02:15 PM | DURATION: 10\n\nFailed to add task: Email triage due to an error\nAdded task: Plan day due at 02:15 PM")) := by
  have h := (productivity_outcome_lines_per_action w_twoActions 1 "focus" advice_c4
    (by rfl) (by decide)).1
  exact h.trans (by rfl)
